import Mathlib

/-!
Shallow embedding of the response-parsing / finding-normalization pipeline of
the `proactive-codebase-testing` repository (files `src/core/analyzer.py`,
`src/core/findings.py`, `src/core/prompts.py`), together with proofs of the
spec's claims about it.

Python values coming out of `json.loads` are modelled by the inductive `Json`;
a Python `None` stored in a field is modelled as `Json.null`.  Python code that
can raise is modelled with `Option` (for a single expression) or
`Except PyErr` (where the identity of the exception matters).
-/

namespace Analyzer

/-- ASCII whitespace recognized by Python's `str.strip` and the regex class
backslash-s (space, tab, newline, carriage return, vertical tab, form feed). -/
def isWs (c : Char) : Bool :=
  c = ' ' || c = '\t' || c = '\n' || c = '\r' || c = '\x0b' || c = '\x0c'

/-- The backtick character (used by the markdown fences in the extraction
regexes). -/
def bq : Char := Char.ofNat 96

/-- The three-backtick fence marker of the extraction regex. -/
def fence : List Char := [bq, bq, bq]

/-- The optional `json` tag of the fenced-block regex. -/
def jsonTag : List Char := ['j', 's', 'o', 'n']

/-- Parsed JSON values (the output of Python's `json.loads`). -/
inductive Json where
  | null
  | bool (b : Bool)
  | num (q : Rat)
  | str (s : String)
  | arr (xs : List Json)
  | obj (kvs : List (String × Json))

/-- Lookup of a key in a JSON object, taking the LAST binding (Python's
`json.loads` keeps the last duplicate key, and `dict.get` then reads that
value).  `none` models a missing key. -/
def lookupLast (kvs : List (String × Json)) (k : String) : Option Json :=
  match kvs with
  | [] => none
  | (k1, v1) :: rest =>
    match lookupLast rest k with
    | some v => some v
    | none => if k1 = k then some v1 else none

/-- `FindingType` enum from `src/core/findings.py`. -/
inductive FindingType where
  | security | bug | quality | performance | accessibility
deriving DecidableEq, Repr

/-- `Severity` enum from `src/core/findings.py`. -/
inductive Severity where
  | critical | high | medium | low | info
deriving DecidableEq, Repr

/-- `Location` dataclass from `src/core/findings.py`.  The optional integer
fields hold whatever JSON value the model reply carried (Python dataclasses do
not enforce the annotations); absent values are Python `None` = `Json.null`. -/
structure Location where
  file_path : String
  line : Json := Json.null
  column : Json := Json.null
  end_line : Json := Json.null
  end_column : Json := Json.null

/-- `Finding` dataclass from `src/core/findings.py`, with the dataclass field
defaults.  Fields that Python leaves dynamically typed are `Json`. -/
structure Finding where
  type : FindingType
  severity : Severity
  message : Json
  location : Location
  remediation : Json := Json.null
  confidence : Json := Json.num 1
  code_snippet : Json := Json.null
  rule_id : Json := Json.null
  metadata : Json := Json.obj []

/-- ASCII lowercasing, modelling Python `str.lower` on the ASCII strings the
analyzer compares against its severity map. -/
def pyLower (s : String) : String := String.mk (s.toList.map Char.toLower)

/-- ASCII uppercasing, modelling Python `str.upper` on the ASCII strings the
analyzer compares against its type map. -/
def pyUpper (s : String) : String := String.mk (s.toList.map Char.toUpper)

/-- The `severity_map` dict of `CodeAnalyzer._parse_finding`; `none` models a
key that is absent (so that `dict.get` falls back to its default). -/
def severity_map (s : String) : Option Severity :=
  if s = "critical" then some Severity.critical
  else if s = "high" then some Severity.high
  else if s = "medium" then some Severity.medium
  else if s = "low" then some Severity.low
  else if s = "info" then some Severity.info
  else none

/-- The `type_map` dict of `CodeAnalyzer._parse_finding`. -/
def type_map (s : String) : Option FindingType :=
  if s = "SECURITY" then some FindingType.security
  else if s = "BUG" then some FindingType.bug
  else if s = "QUALITY" then some FindingType.quality
  else if s = "PERFORMANCE" then some FindingType.performance
  else if s = "ACCESSIBILITY" then some FindingType.accessibility
  else none

/-- `finding_data.get(k)` (default `None`): the stored JSON value, or
`Json.null` when the key is absent. -/
def pyGet (kvs : List (String × Json)) (k : String) : Json :=
  (lookupLast kvs k).getD Json.null

/-- `CodeAnalyzer._parse_finding` from `src/core/analyzer.py`.  Returns `none`
exactly where the Python code raises: when `finding_data` is not a dict
(`.get` then raises `AttributeError`), or when the `severity` / `type` values
are present but are not strings (`.lower()` / `.upper()` then raise
`AttributeError`). -/
def parse_finding (finding_data : Json) (file_path : String) : Option Finding :=
  match finding_data with
  | Json.obj kvs =>
    match (lookupLast kvs "severity").getD (Json.str "medium") with
    | Json.str sevRaw =>
      let severity_str := pyLower sevRaw
      let severity := (severity_map severity_str).getD Severity.medium
      match (lookupLast kvs "type").getD (Json.str "QUALITY") with
      | Json.str tyRaw =>
        let type_str := pyUpper tyRaw
        let finding_type := (type_map type_str).getD FindingType.quality
        let location : Location :=
          { file_path := file_path
            line := pyGet kvs "line"
            column := pyGet kvs "column"
            end_line := pyGet kvs "end_line"
            end_column := pyGet kvs "end_column" }
        some
          { type := finding_type
            severity := severity
            message := (lookupLast kvs "message").getD (Json.str "Unknown issue")
            location := location
            remediation := pyGet kvs "remediation"
            confidence := (lookupLast kvs "confidence").getD (Json.num (4 / 5 : Rat))
            code_snippet := pyGet kvs "code_snippet"
            rule_id := pyGet kvs "rule_id"
            metadata := (lookupLast kvs "metadata").getD (Json.obj []) }
      | _ => none
    | _ => none
  | _ => none

/-- The per-item loop of `CodeAnalyzer._parse_api_response`: each item is
parsed inside its own try/except, a failing item is logged and skipped, a
successful one is appended. -/
def parse_items (items : List Json) (file_path : String) : List Finding :=
  items.filterMap (fun d => parse_finding d file_path)

/-! ## The extraction regexes of `_parse_api_response`

`_parse_api_response` first runs
`re.search(r'(three backticks)(?:json)?\s*(\x7b.*?\x7d)\s*(three backticks)', response, re.DOTALL)`
and, failing that, `re.search(r'\x7b.*\x7d', response, re.DOTALL)`.
These two fixed patterns are modelled directly as backtracking matchers over
`List Char`, following Python's leftmost-match / lazy (shortest) group /
greedy quantifier semantics for exactly these patterns. -/

/-- Drop `p` from the front of `s` if it is literally there. -/
def stripPrefixQ : List Char → List Char → Option (List Char)
  | [], s => some s
  | _, [] => none
  | p :: ps, c :: cs => if c = p then stripPrefixQ ps cs else none

/-- Skip the regex class backslash-s, greedily (`\s*` followed by a
non-whitespace literal never backtracks usefully, so skipping the maximal run
is exact here). -/
def skipWs (s : List Char) : List Char := s.dropWhile isWs

/-- Does `\s*` followed by the closing fence match here? -/
def fenceClose (s : List Char) : Bool := (stripPrefixQ fence (skipWs s)).isSome

/-- The lazy group body: after the opening brace, `.*?` takes the SHORTEST
body such that a closing brace followed by `\s*` and the closing fence comes
next.  Returns the body (without the surrounding braces). -/
def lazyScan : List Char → Option (List Char)
  | [] => none
  | c :: rest =>
    if c = '}' && fenceClose rest then some []
    else
      match lazyScan rest with
      | some body => some (c :: body)
      | none => none

/-- Match `\s*(\x7b.*?\x7d)\s*` + closing fence at this position, returning
the parenthesised group. -/
def groupAt (r : List Char) : Option (List Char) :=
  match skipWs r with
  | '{' :: r2 => (lazyScan r2).map (fun body => '{' :: (body ++ ['}']))
  | _ => none

/-- Match the whole fenced pattern at this position.  The greedy optional
`(?:json)?` first tries to consume the tag and falls back to the untagged
reading on failure. -/
def fenceMatchHere (s : List Char) : Option (List Char) :=
  match stripPrefixQ fence s with
  | none => none
  | some r1 =>
    match stripPrefixQ jsonTag r1 with
    | some rj =>
      match groupAt rj with
      | some g => some g
      | none => groupAt r1
    | none => groupAt r1

/-- `re.search` for the fenced pattern: try each start position left to
right, return the first match's group 1. -/
def searchFence : List Char → Option (List Char)
  | [] => none
  | c :: rest =>
    match fenceMatchHere (c :: rest) with
    | some g => some g
    | none => searchFence rest

/-- `re.search(r'\x7b.*\x7d', s, re.DOTALL)`: leftmost opening brace, greedy
to the last closing brace in the text (match exists iff some closing brace
strictly follows the first opening brace). -/
def greedySpan (s : List Char) : Option (List Char) :=
  match s.dropWhile (fun c => c ≠ '{') with
  | [] => none
  | c :: rest =>
    if rest.contains '}' then
      some (c :: (rest.reverse.dropWhile (fun ch => ch ≠ '}')).reverse)
    else none

/-- The extraction step of `_parse_api_response`: prefer the fenced block's
group, fall back to the greedy brace span, else leave the text unchanged. -/
def extract_json (s : List Char) : List Char :=
  match searchFence s with
  | some g => g
  | none =>
    match greedySpan s with
    | some g => g
    | none => s

/-! ## A model of Python `json.loads`

`json.loads` is standard-library code; it is modelled here by a strict
recursive-descent parser for JSON (numbers are represented exactly as
rationals; `\uXXXX` escapes become the code point, surrogate pairs are not
recombined).  `none` models `json.JSONDecodeError`. -/

/-- Hex digit value. -/
def hexVal (c : Char) : Option Nat :=
  if '0' ≤ c && c ≤ '9' then some (c.toNat - 48)
  else if 'a' ≤ c && c ≤ 'f' then some (c.toNat - 87)
  else if 'A' ≤ c && c ≤ 'F' then some (c.toNat - 55)
  else none

/-- Body of a JSON string literal, after the opening quote; returns the
decoded content and the remainder after the closing quote. -/
def parseStringBody : Nat → List Char → Option (List Char × List Char)
  | 0, _ => none
  | _, [] => none
  | f + 1, c :: rest =>
    if c = '"' then some ([], rest)
    else if c = '\\' then
      match rest with
      | [] => none
      | e :: rest2 =>
        if e = 'u' then
          match rest2 with
          | h1 :: h2 :: h3 :: h4 :: rest3 =>
            match hexVal h1, hexVal h2, hexVal h3, hexVal h4 with
            | some a, some b, some c2, some d =>
              (parseStringBody f rest3).map
                (fun p => (Char.ofNat (((a * 16 + b) * 16 + c2) * 16 + d) :: p.1, p.2))
            | _, _, _, _ => none
          | _ => none
        else
          match
            (if e = '"' then some '"'
             else if e = '\\' then some '\\'
             else if e = '/' then some '/'
             else if e = 'b' then some (Char.ofNat 8)
             else if e = 'f' then some (Char.ofNat 12)
             else if e = 'n' then some '\n'
             else if e = 'r' then some '\r'
             else if e = 't' then some '\t'
             else none : Option Char)
          with
          | some ch => (parseStringBody f rest2).map (fun p => (ch :: p.1, p.2))
          | none => none
    else if c.toNat < 32 then none
    else (parseStringBody f rest).map (fun p => (c :: p.1, p.2))

/-- Digits to a natural number. -/
def digitsToNat (ds : List Char) : Nat :=
  ds.foldl (fun acc c => acc * 10 + (c.toNat - 48)) 0

/-- A JSON number (sign, integer part with the no-leading-zero rule, optional
fraction, optional exponent), as an exact rational. -/
def parseNumber (s : List Char) : Option (Rat × List Char) :=
  let signed : Bool × List Char := match s with
    | '-' :: r => (true, r)
    | _ => (false, s)
  let neg := signed.1
  let s1 := signed.2
  match s1 with
  | [] => none
  | c :: _ =>
    if ¬ c.isDigit then none
    else
      let intDigits := s1.takeWhile Char.isDigit
      let s2 := s1.dropWhile Char.isDigit
      if c = '0' && intDigits.length > 1 then none
      else
        let ip : Rat := (digitsToNat intDigits : Nat)
        let fracRes : Option (Rat × List Char) := match s2 with
          | '.' :: r =>
            let fd := r.takeWhile Char.isDigit
            if fd.isEmpty then none
            else some ((digitsToNat fd : Nat) / ((10 : Rat) ^ fd.length), r.dropWhile Char.isDigit)
          | _ => some (0, s2)
        match fracRes with
        | none => none
        | some (fv, s3) =>
          let expRes : Option (Int × List Char) := match s3 with
            | 'e' :: r | 'E' :: r =>
              let esigned : Bool × List Char := match r with
                | '-' :: r2 => (true, r2)
                | '+' :: r2 => (false, r2)
                | _ => (false, r)
              let ed := esigned.2.takeWhile Char.isDigit
              if ed.isEmpty then none
              else
                let ev : Int := (digitsToNat ed : Int)
                some (if esigned.1 then -ev else ev, esigned.2.dropWhile Char.isDigit)
            | _ => some (0, s3)
          match expRes with
          | none => none
          | some (ev, s4) =>
            let mag : Rat := (ip + fv) * (10 : Rat) ^ ev
            some (if neg then -mag else mag, s4)

mutual

/-- One JSON value (fuel-indexed recursive descent). -/
def parseValue : Nat → List Char → Option (Json × List Char)
  | 0, _ => none
  | f + 1, s =>
    match skipWs s with
    | [] => none
    | c :: rest =>
      if c = 'n' then (stripPrefixQ ['u', 'l', 'l'] rest).map (fun r => (Json.null, r))
      else if c = 't' then (stripPrefixQ ['r', 'u', 'e'] rest).map (fun r => (Json.bool true, r))
      else if c = 'f' then (stripPrefixQ ['a', 'l', 's', 'e'] rest).map (fun r => (Json.bool false, r))
      else if c = '"' then
        (parseStringBody (rest.length + 1) rest).map (fun p => (Json.str (String.mk p.1), p.2))
      else if c = '[' then
        match skipWs rest with
        | ']' :: r2 => some (Json.arr [], r2)
        | _ => (parseElems f rest).map (fun p => (Json.arr p.1, p.2))
      else if c = '{' then
        match skipWs rest with
        | '}' :: r2 => some (Json.obj [], r2)
        | _ => (parseMembers f rest).map (fun p => (Json.obj p.1, p.2))
      else
        (parseNumber (c :: rest)).map (fun p => (Json.num p.1, p.2))

/-- Comma-separated values up to the closing bracket. -/
def parseElems : Nat → List Char → Option (List Json × List Char)
  | 0, _ => none
  | f + 1, s =>
    match parseValue f s with
    | none => none
    | some (v, r) =>
      match skipWs r with
      | ',' :: r2 => (parseElems f r2).map (fun p => (v :: p.1, p.2))
      | ']' :: r2 => some ([v], r2)
      | _ => none

/-- Comma-separated `"key": value` members up to the closing brace. -/
def parseMembers : Nat → List Char → Option (List (String × Json) × List Char)
  | 0, _ => none
  | f + 1, s =>
    match skipWs s with
    | '"' :: r =>
      match parseStringBody (r.length + 1) r with
      | none => none
      | some (k, r2) =>
        match skipWs r2 with
        | ':' :: r3 =>
          match parseValue f r3 with
          | none => none
          | some (v, r4) =>
            match skipWs r4 with
            | ',' :: r5 => (parseMembers f r5).map (fun p => ((String.mk k, v) :: p.1, p.2))
            | '}' :: r5 => some ([(String.mk k, v)], r5)
            | _ => none
        | _ => none
    | _ => none

end

/-- Model of Python `json.loads`: parse one value, allow trailing whitespace
only. -/
def json_loads (s : String) : Option Json :=
  let cs := s.toList
  match parseValue (cs.length + 1) cs with
  | some (j, rest) => if skipWs rest = [] then some j else none
  | none => none

/-- The Python exceptions that matter to the model. -/
inductive PyErr where
  | typeError
deriving DecidableEq, Repr

/-- JSON values that Python cannot iterate over (`for x in v` raises
`TypeError` for numbers, booleans and `None`). -/
def isPyScalar : Json → Bool
  | Json.null => true
  | Json.bool _ => true
  | Json.num _ => true
  | _ => false

/-- Python `for x in v`: lists yield their elements, strings yield their
characters (as one-character strings), dicts yield their keys; numbers,
booleans and `None` raise `TypeError`. -/
def pyIter : Json → Except PyErr (List Json)
  | Json.arr xs => Except.ok xs
  | Json.str s => Except.ok (s.toList.map (fun c => Json.str (String.mk [c])))
  | Json.obj kvs => Except.ok (kvs.map (fun kv => Json.str kv.1))
  | _ => Except.error PyErr.typeError

/-- `CodeAnalyzer._parse_api_response` from `src/core/analyzer.py`.  The outer
`try` catches only `json.JSONDecodeError` (modelled by `json_loads = none`,
which yields `ok []`); the per-item `try` catches everything a bad item can
raise (modelled inside `parse_items`).  The `for` statement itself is outside
any per-item protection, so a non-iterable `findings` value raises a
`TypeError` that propagates to the caller (`Except.error`). -/
def parse_api_response (response : String) (file_path : String) : Except PyErr (List Finding) :=
  let extracted := String.mk (extract_json response.toList)
  match json_loads extracted with
  | none => Except.ok []
  | some data =>
    match data with
    | Json.obj kvs =>
      match pyIter ((lookupLast kvs "findings").getD (Json.arr [])) with
      | Except.error e => Except.error e
      | Except.ok items => Except.ok (parse_items items file_path)
    | Json.arr xs => Except.ok (parse_items xs file_path)
    | _ => Except.ok []

/-! ## `CodeAnalyzer.analyze_code`: empty-input short-circuit and retry loop -/

/-- Outcome of one `self.client.messages.create` attempt. -/
inductive CallResult where
  | failure
  | emptyContent
  | text (s : String)

/-- Observable outcome of one `analyze_code` invocation: the returned finding
list, how many API calls were issued, and the argument of each `time.sleep`
invocation, in order. -/
structure AnalyzeResult where
  findings : List Finding
  apiCalls : Nat
  sleeps : List Nat

/-- The `for attempt in range(self.max_retries)` loop of `analyze_code`.
`remaining + 1 = max_retries - attempt`.  On a transport exception (or on an
exception escaping `_parse_api_response`, which the same `except` catches):
sleep `2 ** attempt` seconds and retry while `attempt < max_retries - 1`,
otherwise return `[]`.  An empty reply returns `[]` immediately without
retrying. -/
def analyzeLoop (call : Nat → CallResult) (file_name : String) : Nat → Nat → AnalyzeResult
  | _, 0 => { findings := [], apiCalls := 0, sleeps := [] }
  | attempt, remaining + 1 =>
    let onFail : AnalyzeResult :=
      if remaining = 0 then { findings := [], apiCalls := 1, sleeps := [] }
      else
        let r := analyzeLoop call file_name (attempt + 1) remaining
        { findings := r.findings, apiCalls := r.apiCalls + 1, sleeps := 2 ^ attempt :: r.sleeps }
    match call attempt with
    | CallResult.failure => onFail
    | CallResult.emptyContent => { findings := [], apiCalls := 1, sleeps := [] }
    | CallResult.text s =>
      match parse_api_response s file_name with
      | Except.ok fs => { findings := fs, apiCalls := 1, sleeps := [] }
      | Except.error _ => onFail

/-- `CodeAnalyzer.analyze_code`: blank input (`not code or not code.strip()`)
short-circuits before the prompt is even used; otherwise the retry loop runs
starting at attempt 0.  `language` only shapes the prompt text and has no
other effect. -/
def analyze_code (call : Nat → CallResult) (code _language file_name : String)
    (max_retries : Nat) : AnalyzeResult :=
  if code.toList.all isWs then { findings := [], apiCalls := 0, sleeps := [] }
  else analyzeLoop call file_name 0 max_retries

/-! ## `AnalysisResult.get_summary` from `src/core/findings.py` -/

/-- The fields of the `AnalysisResult` dataclass that `get_summary` reads
(the timestamp and elapsed-time floats are reported verbatim and are omitted
from the model). -/
structure AnalysisResult where
  findings : List Finding
  files_analyzed : Nat := 0
  total_lines : Nat := 0

/-- `AnalysisResult.get_findings_by_severity`. -/
def get_findings_by_severity (r : AnalysisResult) (severity : Severity) : List Finding :=
  r.findings.filter (fun f => decide (f.severity = severity))

/-- `AnalysisResult.get_findings_by_type`. -/
def get_findings_by_type (r : AnalysisResult) (finding_type : FindingType) : List Finding :=
  r.findings.filter (fun f => decide (f.type = finding_type))

/-- `severity.value` strings. -/
def sevValue : Severity → String
  | Severity.critical => "critical"
  | Severity.high => "high"
  | Severity.medium => "medium"
  | Severity.low => "low"
  | Severity.info => "info"

/-- `finding_type.value` strings. -/
def typeValue : FindingType → String
  | FindingType.security => "security"
  | FindingType.bug => "bug"
  | FindingType.quality => "quality"
  | FindingType.performance => "performance"
  | FindingType.accessibility => "accessibility"

/-- `for severity in Severity` iterates in declaration order. -/
def severityMembers : List Severity :=
  [Severity.critical, Severity.high, Severity.medium, Severity.low, Severity.info]

/-- `for finding_type in FindingType` iterates in declaration order. -/
def findingTypeMembers : List FindingType :=
  [FindingType.security, FindingType.bug, FindingType.quality,
   FindingType.performance, FindingType.accessibility]

/-- The summary dict built by `AnalysisResult.get_summary` (timestamp
omitted). -/
structure Summary where
  total_findings : Nat
  findings_by_severity : List (String × Nat)
  findings_by_type : List (String × Nat)
  files_analyzed : Nat
  total_lines : Nat

/-- `AnalysisResult.get_summary`. -/
def get_summary (r : AnalysisResult) : Summary :=
  { total_findings := r.findings.length
    findings_by_severity :=
      severityMembers.map (fun s => (sevValue s, (get_findings_by_severity r s).length))
    findings_by_type :=
      findingTypeMembers.map (fun t => (typeValue t, (get_findings_by_type r t).length))
    files_analyzed := r.files_analyzed
    total_lines := r.total_lines }

/-! ## Prompt templates from `src/core/prompts.py`

The f-string templates are transcribed verbatim; `\x7b`/`\x7d` are literal
braces, `\x22` a literal double quote, `\x27` a literal apostrophe.  The
doubled braces of the Python source render as single braces. -/

/-- The three-backtick fence as a string. -/
def fenceStr : String := String.mk fence

/-- The language-tagged code fence every template embeds:
three backticks, the language, a newline, the literal code, a newline, three
backticks. -/
def codeFence (language code : String) : String :=
  fenceStr ++ language ++ "\n" ++ code ++ "\n" ++ fenceStr

/-- The instruction line (shared by all four templates) asking for a single
JSON object, up to and including the object's opening brace. -/
def fmtHeader : String :=
  "Format your response as JSON with this structure:\n\x7b\n  "

/-- The `findings` array key inside the instructed JSON structure. -/
def findingsKeyStr : String := "\x22findings\x22: ["

/-- `get_security_prompt` from `src/core/prompts.py`. -/
def get_security_prompt (file_name code language : String) : String :=
  "Analyze the following " ++ language ++ " code for security vulnerabilities.\n\nFile: "
  ++ file_name
  ++ "\n\nCode:\n"
  ++ codeFence language code
  ++ "\n\nPlease identify:\n1. SQL injection vulnerabilities\n2. Cross-site scripting (XSS) vulnerabilities\n3. Authentication and authorization issues\n4. Insecure data storage or transmission\n5. Hardcoded secrets, API keys, or credentials\n6. Insecure deserialization\n7. Server-side request forgery (SSRF)\n8. Path traversal vulnerabilities\n9. Command injection\n10. Insecure random number generation\n\nFor each vulnerability found, provide:\n- Type: The vulnerability type (e.g., SQL_INJECTION, XSS)\n- Severity: critical, high, medium, or low\n- Location: Line number(s) where the issue occurs\n- Message: Clear description of the vulnerability\n- Remediation: How to fix the issue\n- Confidence: Your confidence level (0.0 to 1.0)\n\n"
  ++ fmtHeader ++ findingsKeyStr
  ++ "\n    \x7b\n      \x22type\x22: \x22SECURITY\x22,\n      \x22severity\x22: \x22critical\x22,\n      \x22line\x22: 42,\n      \x22message\x22: \x22SQL injection vulnerability: user input directly concatenated into SQL query\x22,\n      \x22remediation\x22: \x22Use parameterized queries or prepared statements\x22,\n      \x22confidence\x22: 0.95,\n      \x22code_snippet\x22: \x22query = f\x27SELECT * FROM users WHERE id = \x7buser_input\x7d\x27\x22  # Example: SQL injection pattern (for demonstration)\n    \x7d\n  ]\n\x7d\n\nIf no vulnerabilities are found, return: \x7b\x22findings\x22: []\x7d\n"

/-- `get_bug_detection_prompt` from `src/core/prompts.py`. -/
def get_bug_detection_prompt (file_name code language : String) : String :=
  "Analyze the following " ++ language ++ " code for bugs and logic errors.\n\nFile: "
  ++ file_name
  ++ "\n\nCode:\n"
  ++ codeFence language code
  ++ "\n\nPlease identify:\n1. Null pointer/null reference exceptions\n2. Array/string index out of bounds\n3. Division by zero\n4. Infinite loops or recursion\n5. Resource leaks (unclosed files, connections)\n6. Race conditions\n7. Off-by-one errors\n8. Type mismatches\n9. Uninitialized variables\n10. Logic errors\n\nFor each bug found, provide:\n- Type: The bug type (e.g., NULL_POINTER, RESOURCE_LEAK)\n- Severity: critical, high, medium, or low\n- Location: Line number(s) where the bug occurs\n- Message: Clear description of the bug\n- Remediation: How to fix the bug\n- Confidence: Your confidence level (0.0 to 1.0)\n\n"
  ++ fmtHeader ++ findingsKeyStr
  ++ "\n    \x7b\n      \x22type\x22: \x22BUG\x22,\n      \x22severity\x22: \x22high\x22,\n      \x22line\x22: 15,\n      \x22message\x22: \x22Potential null pointer: variable \x27user\x27 may be None before access\x22,\n      \x22remediation\x22: \x22Add null check before accessing user properties\x22,\n      \x22confidence\x22: 0.85,\n      \x22code_snippet\x22: \x22name = user.name\x22\n    \x7d\n  ]\n\x7d\n\nIf no bugs are found, return: \x7b\x22findings\x22: []\x7d\n"

/-- `get_quality_prompt` from `src/core/prompts.py`. -/
def get_quality_prompt (file_name code language : String) : String :=
  "Analyze the following " ++ language ++ " code for code quality issues.\n\nFile: "
  ++ file_name
  ++ "\n\nCode:\n"
  ++ codeFence language code
  ++ "\n\nPlease identify:\n1. Code smells (long methods, large classes)\n2. Anti-patterns\n3. Best practice violations\n4. Duplicate code\n5. Poor naming conventions\n6. Missing error handling\n7. Inefficient algorithms\n8. Missing documentation\n9. Complex conditional logic\n10. Tight coupling\n\nFor each issue found, provide:\n- Type: The issue type (e.g., CODE_SMELL, ANTI_PATTERN)\n- Severity: critical, high, medium, low, or info\n- Location: Line number(s) where the issue occurs\n- Message: Clear description of the issue\n- Remediation: How to improve the code\n- Confidence: Your confidence level (0.0 to 1.0)\n\n"
  ++ fmtHeader ++ findingsKeyStr
  ++ "\n    \x7b\n      \x22type\x22: \x22QUALITY\x22,\n      \x22severity\x22: \x22medium\x22,\n      \x22line\x22: 50,\n      \x22message\x22: \x22Method is too long (150 lines), consider breaking into smaller functions\x22,\n      \x22remediation\x22: \x22Extract logical sections into separate methods\x22,\n      \x22confidence\x22: 0.90,\n      \x22code_snippet\x22: \x22def process_data(): ...\x22\n    \x7d\n  ]\n\x7d\n\nIf no issues are found, return: \x7b\x22findings\x22: []\x7d\n"

/-- `get_comprehensive_prompt` from `src/core/prompts.py`. -/
def get_comprehensive_prompt (file_name code language : String) : String :=
  "Perform a comprehensive analysis of the following " ++ language ++ " code.\n\nFile: "
  ++ file_name
  ++ "\n\nCode:\n"
  ++ codeFence language code
  ++ "\n\nAnalyze for:\n1. Security vulnerabilities (SQL injection, XSS, authentication issues, etc.)\n2. Bugs and logic errors (null pointers, resource leaks, race conditions, etc.)\n3. Code quality issues (code smells, anti-patterns, best practices, etc.)\n\nFor each finding, provide:\n- Type: SECURITY, BUG, or QUALITY\n- Severity: critical, high, medium, low, or info\n- Location: Line number(s) where the issue occurs\n- Message: Clear description of the issue\n- Remediation: How to fix or improve\n- Confidence: Your confidence level (0.0 to 1.0)\n\n"
  ++ fmtHeader ++ findingsKeyStr
  ++ "\n    \x7b\n      \x22type\x22: \x22SECURITY\x22,\n      \x22severity\x22: \x22critical\x22,\n      \x22line\x22: 42,\n      \x22message\x22: \x22SQL injection vulnerability\x22,\n      \x22remediation\x22: \x22Use parameterized queries\x22,\n      \x22confidence\x22: 0.95,\n      \x22code_snippet\x22: \x22query = f\x27SELECT * FROM users WHERE id = \x7buser_input\x7d\x27\x22  # Example: SQL injection pattern (for demonstration)\n    \x7d,\n    \x7b\n      \x22type\x22: \x22BUG\x22,\n      \x22severity\x22: \x22high\x22,\n      \x22line\x22: 15,\n      \x22message\x22: \x22Potential null pointer\x22,\n      \x22remediation\x22: \x22Add null check\x22,\n      \x22confidence\x22: 0.85,\n      \x22code_snippet\x22: \x22name = user.name\x22\n    \x7d\n  ]\n\x7d\n\nIf no findings are found, return: \x7b\x22findings\x22: []\x7d\n"

/-- `get_prompt` from `src/core/prompts.py`: dictionary dispatch on
`analysis_type.lower()` with `get_comprehensive_prompt` as the `dict.get`
default. -/
def get_prompt (analysis_type file_name code language : String) : String :=
  let k := pyLower analysis_type
  if k = "security" then get_security_prompt file_name code language
  else if k = "bugs" then get_bug_detection_prompt file_name code language
  else if k = "quality" then get_quality_prompt file_name code language
  else if k = "comprehensive" then get_comprehensive_prompt file_name code language
  else get_comprehensive_prompt file_name code language

/-! ## Claim-level predicates (stated from the spec's vocabulary) -/

/-- The parsed top level is an object whose `findings` value cannot be
iterated (the shape on which the `for` loop of `_parse_api_response` raises
`TypeError`). -/
def badFindingsShape (response : String) : Bool :=
  match json_loads (String.mk (extract_json response.toList)) with
  | some (Json.obj kvs) => isPyScalar ((lookupLast kvs "findings").getD (Json.arr []))
  | _ => false

/-- Every character is whitespace. -/
def allWs (l : List Char) : Prop := ∀ c ∈ l, isWs c = true

/-- No character is a backtick. -/
def noBq (l : List Char) : Prop := ∀ c ∈ l, c ≠ bq

instance (l : List Char) : Decidable (allWs l) := by unfold allWs; infer_instance

instance (l : List Char) : Decidable (noBq l) := by unfold noBq; infer_instance

/-- Brace-balance scan: depth stays positive and returns to zero exactly at
the last character. -/
def objScan : List Char → Nat → Bool
  | [], _ => false
  | c :: rest, k =>
    if c = '{' then objScan rest (k + 1)
    else if c = '}' then (if k = 1 then rest.isEmpty else objScan rest (k - 1))
    else objScan rest k

/-- A balanced `{...}` object at the brace-counting level: starts with an
opening brace and the braces balance exactly at the final character. -/
def isBalancedObj (l : List Char) : Bool :=
  match l with
  | '{' :: rest => objScan rest 1
  | _ => false

/-- The text contains a fenced code block (tagged `json` or untagged) whose
content is a balanced brace-delimited object: the spec's hypothesis for the
fenced-extraction claim. -/
def FencedJsonBlock (s obj : List Char) : Prop :=
  ∃ pre tag ws1 ws2 post,
    (tag = jsonTag ∨ tag = []) ∧ allWs ws1 ∧ allWs ws2 ∧
    isBalancedObj obj = true ∧
    s = pre ++ fence ++ tag ++ ws1 ++ obj ++ ws2 ++ fence ++ post

/-- The text has a brace character somewhere (used for "stray braces outside
the fence"). -/
def hasBrace (l : List Char) : Bool := l.any (fun c => c = '{' || c = '}')

/-- `m` occurs as a contiguous substring of `s`. -/
def containsStr (s m : String) : Prop := ∃ a b, s = a ++ (m ++ b)

/-! ## Theorems -/

/-- Summing the per-severity filter counts over the five enum members counts
each finding exactly once. -/
lemma sum_severity_counts (l : List Finding) :
    (severityMembers.map (fun s => (l.filter (fun f => decide (f.severity = s))).length)).sum
      = l.length := by
  induction l with
  | nil => simp [severityMembers]
  | cons f t ih =>
    cases hf : f.severity <;>
      simp only [severityMembers, List.map_cons, List.map_nil, List.filter_cons, hf,
        List.sum_cons, List.sum_nil] at ih ⊢ <;>
      simp_all <;> omega

/-- Summing the per-type filter counts over the five enum members counts each
finding exactly once. -/
lemma sum_type_counts (l : List Finding) :
    (findingTypeMembers.map (fun t => (l.filter (fun f => decide (f.type = t))).length)).sum
      = l.length := by
  induction l with
  | nil => simp [findingTypeMembers]
  | cons f t ih =>
    cases hf : f.type <;>
      simp only [findingTypeMembers, List.map_cons, List.map_nil, List.filter_cons, hf,
        List.sum_cons, List.sum_nil] at ih ⊢ <;>
      simp_all <;> omega

/-- C7: for every `AnalysisResult`, `get_summary` reports `total_findings`
equal to the length of the findings sequence, and both the by-severity and
the by-type breakdown counts sum to that same total. -/
theorem C7_summary_totals (r : AnalysisResult) :
    (get_summary r).total_findings = r.findings.length ∧
    ((get_summary r).findings_by_severity.map Prod.snd).sum = (get_summary r).total_findings ∧
    ((get_summary r).findings_by_type.map Prod.snd).sum = (get_summary r).total_findings := by
  refine ⟨rfl, ?_, ?_⟩
  · simpa [get_summary, get_findings_by_severity, List.map_map, Function.comp]
      using sum_severity_counts r.findings
  · simpa [get_summary, get_findings_by_type, List.map_map, Function.comp]
      using sum_type_counts r.findings

/-- C6: blank or whitespace-only code short-circuits `analyze_code`: zero
findings, no API call, no sleep. -/
theorem C6_blank_short_circuit (call : Nat → CallResult)
    (code language file_name : String) (max_retries : Nat)
    (h : code.toList.all isWs = true) :
    analyze_code call code language file_name max_retries =
      { findings := [], apiCalls := 0, sleeps := [] } := by
  unfold analyze_code
  rw [h]
  simp

/-- Witness for C6 at a concrete whitespace-only input. -/
theorem C6_blank_short_circuit_witness :
    ("  \n".toList.all isWs = true) ∧
    analyze_code (fun _ => CallResult.failure) "  \n" "python" "a.py" 5 =
      { findings := [], apiCalls := 0, sleeps := [] } :=
  ⟨by decide, C6_blank_short_circuit (fun _ => CallResult.failure) "  \n" "python" "a.py" 5
    (by decide)⟩

/-- C5: with `max_retries = 3`, three consecutive transport failures make
`analyze_code` issue 3 calls, sleep exactly twice with delays `2 ^ 0 = 1`
then `2 ^ 1 = 2` seconds, and return the empty finding list (no exception:
the result is an ordinary value). -/
theorem C5_retry_backoff (call : Nat → CallResult) (code language file_name : String)
    (hcode : code.toList.all isWs = false)
    (hfail : ∀ i, i < 3 → call i = CallResult.failure) :
    analyze_code call code language file_name 3 =
      { findings := [], apiCalls := 3, sleeps := [1, 2] } := by
  have h0 := hfail 0 (by omega)
  have h1 := hfail 1 (by omega)
  have h2 := hfail 2 (by omega)
  show (if (code.toList.all isWs : Bool) then _ else analyzeLoop call file_name 0 (2 + 1)) = _
  rw [hcode]
  simp only [analyzeLoop, h0, h1, h2]
  norm_num

/-- Witness for C5 at a concrete always-failing transport. -/
theorem C5_retry_backoff_witness :
    ("x".toList.all isWs = false) ∧
    analyze_code (fun _ => CallResult.failure) "x" "python" "a.py" 3 =
      { findings := [], apiCalls := 3, sleeps := [1, 2] } :=
  ⟨by decide, C5_retry_backoff (fun _ => CallResult.failure) "x" "python" "a.py"
    (by decide) (fun _ _ => rfl)⟩

/-- Appending a binding makes it the value `lookupLast` returns for its key. -/
lemma lookupLast_append_self (kvs : List (String × Json)) (k : String) (v : Json) :
    lookupLast (kvs ++ [(k, v)]) k = some v := by
  induction kvs with
  | nil => simp [lookupLast]
  | cons hd t ih => simp [lookupLast, ih]

/-- Appending a binding leaves lookups of other keys unchanged. -/
lemma lookupLast_append_ne (kvs : List (String × Json)) (k : String) (v : Json)
    (k' : String) (h : k ≠ k') :
    lookupLast (kvs ++ [(k, v)]) k' = lookupLast kvs k' := by
  induction kvs with
  | nil => simp [lookupLast, h]
  | cons hd t ih => simp [lookupLast, ih]

/-- Evaluation of `parse_finding` on a dict whose `severity` and `type`
slots resolve to strings. -/
lemma parse_finding_eval (kvs : List (String × Json)) (fp : String)
    (sevRaw tyRaw : String)
    (hs : (lookupLast kvs "severity").getD (Json.str "medium") = Json.str sevRaw)
    (ht : (lookupLast kvs "type").getD (Json.str "QUALITY") = Json.str tyRaw) :
    parse_finding (Json.obj kvs) fp = some
      { type := (type_map (pyUpper tyRaw)).getD FindingType.quality
        severity := (severity_map (pyLower sevRaw)).getD Severity.medium
        message := (lookupLast kvs "message").getD (Json.str "Unknown issue")
        location :=
          { file_path := fp
            line := pyGet kvs "line"
            column := pyGet kvs "column"
            end_line := pyGet kvs "end_line"
            end_column := pyGet kvs "end_column" }
        remediation := pyGet kvs "remediation"
        confidence := (lookupLast kvs "confidence").getD (Json.num (4 / 5 : Rat))
        code_snippet := pyGet kvs "code_snippet"
        rule_id := pyGet kvs "rule_id"
        metadata := (lookupLast kvs "metadata").getD (Json.obj []) } := by
  simp only [parse_finding]
  rw [hs, ht]

/-- If `parse_finding` succeeds on a dict, its `severity` and `type` slots
resolved to strings. -/
lemma parse_finding_some_strings (kvs : List (String × Json)) (fp : String) (f : Finding)
    (h : parse_finding (Json.obj kvs) fp = some f) :
    ∃ sevRaw tyRaw,
      (lookupLast kvs "severity").getD (Json.str "medium") = Json.str sevRaw ∧
      (lookupLast kvs "type").getD (Json.str "QUALITY") = Json.str tyRaw := by
  simp only [parse_finding] at h
  split at h
  · split at h
    · exact ⟨_, _, by assumption, by assumption⟩
    all_goals exact absurd h (by simp)
  all_goals exact absurd h (by simp)

/-- The severity field of a successfully parsed item whose `severity` slot is
the string `s` is the case-insensitive enum lookup with default `medium`. -/
lemma parsed_severity (kvs : List (String × Json)) (fp : String) (f : Finding) (s : String)
    (hs : (lookupLast kvs "severity").getD (Json.str "medium") = Json.str s)
    (h : parse_finding (Json.obj kvs) fp = some f) :
    f.severity = (severity_map (pyLower s)).getD Severity.medium := by
  obtain ⟨sevRaw, tyRaw, hs', ht'⟩ := parse_finding_some_strings kvs fp f h
  have : sevRaw = s := by rw [hs] at hs'; exact (Json.str.injEq _ _).mp hs'.symm
  subst this
  rw [parse_finding_eval kvs fp sevRaw tyRaw hs' ht'] at h
  cases h
  rfl

/-- The type field of a successfully parsed item whose `type` slot is the
string `t` is the case-insensitive enum lookup with default `quality`. -/
lemma parsed_type (kvs : List (String × Json)) (fp : String) (f : Finding) (t : String)
    (ht : (lookupLast kvs "type").getD (Json.str "QUALITY") = Json.str t)
    (h : parse_finding (Json.obj kvs) fp = some f) :
    f.type = (type_map (pyUpper t)).getD FindingType.quality := by
  obtain ⟨sevRaw, tyRaw, hs', ht'⟩ := parse_finding_some_strings kvs fp f h
  have : tyRaw = t := by rw [ht] at ht'; exact (Json.str.injEq _ _).mp ht'.symm
  subst this
  rw [parse_finding_eval kvs fp sevRaw tyRaw hs' ht'] at h
  cases h
  rfl

/-- The message field of a successfully parsed item is the `message` slot
with default `"Unknown issue"`. -/
lemma parsed_message (kvs : List (String × Json)) (fp : String) (f : Finding)
    (h : parse_finding (Json.obj kvs) fp = some f) :
    f.message = (lookupLast kvs "message").getD (Json.str "Unknown issue") := by
  obtain ⟨sevRaw, tyRaw, hs', ht'⟩ := parse_finding_some_strings kvs fp f h
  rw [parse_finding_eval kvs fp sevRaw tyRaw hs' ht'] at h
  cases h
  rfl

/-- The confidence field of a successfully parsed item is the `confidence`
slot with default `0.8`. -/
lemma parsed_confidence (kvs : List (String × Json)) (fp : String) (f : Finding)
    (h : parse_finding (Json.obj kvs) fp = some f) :
    f.confidence = (lookupLast kvs "confidence").getD (Json.num (4 / 5 : Rat)) := by
  obtain ⟨sevRaw, tyRaw, hs', ht'⟩ := parse_finding_some_strings kvs fp f h
  rw [parse_finding_eval kvs fp sevRaw tyRaw hs' ht'] at h
  cases h
  rfl

/-- An unrecognized lowercased severity string misses every arm of
`severity_map`. -/
lemma severity_map_none (s : String)
    (h : s ∉ (["critical", "high", "medium", "low", "info"] : List String)) :
    severity_map s = none := by
  unfold severity_map
  split_ifs with h1 h2 h3 h4 h5 <;> simp_all

/-- An unrecognized uppercased type string misses every arm of `type_map`. -/
lemma type_map_none (s : String)
    (h : s ∉ (["SECURITY", "BUG", "QUALITY", "PERFORMANCE", "ACCESSIBILITY"] : List String)) :
    type_map s = none := by
  unfold type_map
  split_ifs with h1 h2 h3 h4 h5 <;> simp_all

/-- When every item parses, the per-item loop produces one finding per item. -/
lemma parse_items_length_of_all (fp : String) (l : List Json)
    (h : ∀ x ∈ l, (parse_finding x fp).isSome) :
    (parse_items l fp).length = l.length := by
  induction l with
  | nil => rfl
  | cons x t ih =>
    obtain ⟨f, hf⟩ := Option.isSome_iff_exists.mp (h x (by simp))
    have hc : parse_items (x :: t) fp = f :: parse_items t fp := by
      simp [parse_items, List.filterMap_cons, hf]
    rw [hc, List.length_cons, List.length_cons,
      ih (fun y hy => h y (by simp [hy]))]

/-- C1: if exactly one item of a findings array is malformed (its per-item
parse crashes) and all other items are well-formed, the per-item loop of
`_parse_api_response` returns exactly the findings built from the well-formed
items, in their original relative order, skipping only the malformed item. -/
theorem C1_fault_isolation (pre post : List Json) (bad : Json) (fp : String)
    (hpre : ∀ x ∈ pre, (parse_finding x fp).isSome)
    (hpost : ∀ x ∈ post, (parse_finding x fp).isSome)
    (hbad : parse_finding bad fp = none) :
    parse_items (pre ++ bad :: post) fp = parse_items (pre ++ post) fp ∧
    (parse_items (pre ++ post) fp).length = pre.length + post.length := by
  constructor
  · simp [parse_items, List.filterMap_append, List.filterMap_cons, hbad]
  · rw [parse_items_length_of_all fp (pre ++ post)
      (fun x hx => (List.mem_append.mp hx).elim (hpre x) (hpost x))]
    exact List.length_append pre post

/-- Witness for C1: the spec's example, item 2 of 3 malformed because its
severity is a nested object. -/
theorem C1_fault_isolation_witness :
    parse_items ([Json.obj [("severity", Json.str "high"), ("message", Json.str "a")]] ++
        Json.obj [("severity", Json.obj [])] ::
        [Json.obj [("severity", Json.str "low"), ("message", Json.str "b")]]) "a.py" =
      parse_items ([Json.obj [("severity", Json.str "high"), ("message", Json.str "a")]] ++
        [Json.obj [("severity", Json.str "low"), ("message", Json.str "b")]]) "a.py" ∧
    (parse_items ([Json.obj [("severity", Json.str "high"), ("message", Json.str "a")]] ++
        [Json.obj [("severity", Json.str "low"), ("message", Json.str "b")]]) "a.py").length =
      ([Json.obj [("severity", Json.str "high"), ("message", Json.str "a")]] : List Json).length +
      ([Json.obj [("severity", Json.str "low"), ("message", Json.str "b")]] : List Json).length :=
  C1_fault_isolation
    [Json.obj [("severity", Json.str "high"), ("message", Json.str "a")]]
    [Json.obj [("severity", Json.str "low"), ("message", Json.str "b")]]
    (Json.obj [("severity", Json.obj [])]) "a.py"
    (by decide) (by decide) rfl

/-- C4: severity and type strings are matched case-insensitively against the
fixed enums; unrecognized or missing string values fall back to `medium`
severity and `quality` type without erroring. -/
theorem C4_enum_fallbacks :
    (∀ (kvs : List (String × Json)) (fp : String) (f : Finding) (s : String) (sev : Severity),
       lookupLast kvs "severity" = some (Json.str s) →
       severity_map (pyLower s) = some sev →
       parse_finding (Json.obj kvs) fp = some f → f.severity = sev) ∧
    (∀ (kvs : List (String × Json)) (fp : String) (f : Finding) (s : String),
       lookupLast kvs "severity" = some (Json.str s) →
       pyLower s ∉ (["critical", "high", "medium", "low", "info"] : List String) →
       parse_finding (Json.obj kvs) fp = some f → f.severity = Severity.medium) ∧
    (∀ (kvs : List (String × Json)) (fp : String) (f : Finding),
       lookupLast kvs "severity" = none →
       parse_finding (Json.obj kvs) fp = some f → f.severity = Severity.medium) ∧
    (∀ (kvs : List (String × Json)) (fp : String) (f : Finding) (t : String)
       (ty : FindingType),
       lookupLast kvs "type" = some (Json.str t) →
       type_map (pyUpper t) = some ty →
       parse_finding (Json.obj kvs) fp = some f → f.type = ty) ∧
    (∀ (kvs : List (String × Json)) (fp : String) (f : Finding) (t : String),
       lookupLast kvs "type" = some (Json.str t) →
       pyUpper t ∉ (["SECURITY", "BUG", "QUALITY", "PERFORMANCE", "ACCESSIBILITY"] : List String) →
       parse_finding (Json.obj kvs) fp = some f → f.type = FindingType.quality) ∧
    (∀ (kvs : List (String × Json)) (fp : String) (f : Finding),
       lookupLast kvs "type" = none →
       parse_finding (Json.obj kvs) fp = some f → f.type = FindingType.quality) ∧
    (∀ (fp s t : String),
       (parse_finding (Json.obj [("severity", Json.str s), ("type", Json.str t)]) fp).isSome) := by
  refine ⟨?_, ?_, ?_, ?_, ?_, ?_, ?_⟩
  · intro kvs fp f s sev hl hm h
    rw [parsed_severity kvs fp f s (by simp [hl]) h, hm]
    rfl
  · intro kvs fp f s hl hm h
    rw [parsed_severity kvs fp f s (by simp [hl]) h, severity_map_none _ hm]
    rfl
  · intro kvs fp f hl h
    rw [parsed_severity kvs fp f "medium" (by simp [hl]) h]
    decide
  · intro kvs fp f t ty hl hm h
    rw [parsed_type kvs fp f t (by simp [hl]) h, hm]
    rfl
  · intro kvs fp f t hl hm h
    rw [parsed_type kvs fp f t (by simp [hl]) h, type_map_none _ hm]
    rfl
  · intro kvs fp f hl h
    rw [parsed_type kvs fp f "QUALITY" (by simp [hl]) h]
    decide
  · intro fp s t
    rw [parse_finding_eval [("severity", Json.str s), ("type", Json.str t)] fp s t
      (by simp [lookupLast]) (by simp [lookupLast])]
    rfl

/-- Witness for C4: the spec's examples, `severity: "urgent"` normalizes to
`medium` and a missing `type` field normalizes to `quality` (and matching is
case-insensitive: `"CriTiCal"` maps to `critical`). -/
theorem C4_enum_fallbacks_witness :
    (parse_finding (Json.obj [("severity", Json.str "urgent")]) "a.py").map Finding.severity
      = some Severity.medium ∧
    (parse_finding (Json.obj []) "a.py").map Finding.type = some FindingType.quality ∧
    (parse_finding (Json.obj [("severity", Json.str "CriTiCal")]) "a.py").map Finding.severity
      = some Severity.critical := by
  obtain ⟨f1, hf1⟩ : ∃ f, parse_finding (Json.obj [("severity", Json.str "urgent")]) "a.py"
      = some f := ⟨_, rfl⟩
  obtain ⟨f2, hf2⟩ : ∃ f, parse_finding (Json.obj []) "a.py" = some f := ⟨_, rfl⟩
  obtain ⟨f3, hf3⟩ : ∃ f, parse_finding (Json.obj [("severity", Json.str "CriTiCal")]) "a.py"
      = some f := ⟨_, rfl⟩
  refine ⟨?_, ?_, ?_⟩
  · rw [hf1]
    show some f1.severity = some Severity.medium
    exact congrArg some
      (C4_enum_fallbacks.2.1 [("severity", Json.str "urgent")] "a.py" f1 "urgent" rfl
        (by decide) hf1)
  · rw [hf2]
    show some f2.type = some FindingType.quality
    exact congrArg some (C4_enum_fallbacks.2.2.2.2.2.1 [] "a.py" f2 rfl hf2)
  · rw [hf3]
    show some f3.severity = some Severity.critical
    exact congrArg some
      (C4_enum_fallbacks.1 [("severity", Json.str "CriTiCal")] "a.py" f3 "CriTiCal"
        Severity.critical rfl (by decide) hf3)

/-- C9 as stated is false: a finding item carrying an explicitly empty
`message` string is normalized to a `Finding` whose message is the empty
string (only an ABSENT message gets the placeholder). -/
theorem C9_counterexample :
    (parse_finding (Json.obj [("message", Json.str "")]) "a.py").map Finding.message
      = some (Json.str "") := rfl

/-- C9 (amended): a missing message field is replaced by the non-empty
placeholder `"Unknown issue"`, while a present message value — including the
empty string — passes through unchanged, so a constructed `Finding` can carry
an empty message. -/
theorem C9_message_default (kvs : List (String × Json)) (fp : String) (f : Finding) :
    (lookupLast kvs "message" = none →
       parse_finding (Json.obj kvs) fp = some f → f.message = Json.str "Unknown issue") ∧
    (∀ v, lookupLast kvs "message" = some v →
       parse_finding (Json.obj kvs) fp = some f → f.message = v) ∧
    ("Unknown issue" : String) ≠ "" := by
  refine ⟨?_, ?_, by decide⟩
  · intro hl h
    rw [parsed_message kvs fp f h, hl]
    rfl
  · intro v hl h
    rw [parsed_message kvs fp f h, hl]
    rfl

/-- Witness for C9 (amended): a missing message yields the placeholder and a
present message passes through. -/
theorem C9_message_default_witness :
    (parse_finding (Json.obj []) "a.py").map Finding.message
      = some (Json.str "Unknown issue") ∧
    (parse_finding (Json.obj [("message", Json.str "hi")]) "a.py").map Finding.message
      = some (Json.str "hi") := by
  obtain ⟨f1, hf1⟩ : ∃ f, parse_finding (Json.obj []) "a.py" = some f := ⟨_, rfl⟩
  obtain ⟨f2, hf2⟩ : ∃ f, parse_finding (Json.obj [("message", Json.str "hi")]) "a.py"
      = some f := ⟨_, rfl⟩
  constructor
  · rw [hf1]
    show some f1.message = some (Json.str "Unknown issue")
    exact congrArg some ((C9_message_default [] "a.py" f1).1 rfl hf1)
  · rw [hf2]
    show some f2.message = some (Json.str "hi")
    exact congrArg some
      ((C9_message_default [("message", Json.str "hi")] "a.py" f2).2.1 (Json.str "hi") rfl hf2)

/-- C10: a missing confidence field defaults to the normalizer's own `0.8`
(not the `Finding` dataclass default `1.0`), and a present confidence value is
passed through unchanged — no clamping to `[0, 1]`. -/
theorem C10_confidence_default (kvs : List (String × Json)) (fp : String) (f : Finding) :
    (lookupLast kvs "confidence" = none →
       parse_finding (Json.obj kvs) fp = some f → f.confidence = Json.num (4 / 5 : Rat)) ∧
    (∀ v, lookupLast kvs "confidence" = some v →
       parse_finding (Json.obj kvs) fp = some f → f.confidence = v) ∧
    (∀ (t : FindingType) (sev : Severity) (m : Json) (l : Location),
       ({ type := t, severity := sev, message := m, location := l } : Finding).confidence
         = Json.num 1) ∧
    Json.num (4 / 5 : Rat) ≠ Json.num 1 := by
  refine ⟨?_, ?_, fun _ _ _ _ => rfl, ?_⟩
  · intro hl h
    rw [parsed_confidence kvs fp f h, hl]
    rfl
  · intro v hl h
    rw [parsed_confidence kvs fp f h, hl]
    rfl
  · intro h
    injection h with h
    norm_num at h

/-- Witness for C10: missing confidence becomes `0.8`; the out-of-range value
`1.5` passes through unclamped. -/
theorem C10_confidence_default_witness :
    (parse_finding (Json.obj []) "a.py").map Finding.confidence
      = some (Json.num (4 / 5 : Rat)) ∧
    (parse_finding (Json.obj [("confidence", Json.num (3 / 2 : Rat))]) "a.py").map
        Finding.confidence = some (Json.num (3 / 2 : Rat)) := by
  obtain ⟨f1, hf1⟩ : ∃ f, parse_finding (Json.obj []) "a.py" = some f := ⟨_, rfl⟩
  obtain ⟨f2, hf2⟩ : ∃ f, parse_finding
      (Json.obj [("confidence", Json.num (3 / 2 : Rat))]) "a.py" = some f := ⟨_, rfl⟩
  constructor
  · rw [hf1]
    show some f1.confidence = some (Json.num (4 / 5 : Rat))
    exact congrArg some ((C10_confidence_default [] "a.py" f1).1 rfl hf1)
  · rw [hf2]
    show some f2.confidence = some (Json.num (3 / 2 : Rat))
    exact congrArg some ((C10_confidence_default [("confidence", Json.num (3 / 2 : Rat))]
      "a.py" f2).2.1 (Json.num (3 / 2 : Rat)) rfl hf2)

/-- C2 as stated is false: a reply whose parsed top level is an object with a
non-iterable `findings` value makes `_parse_api_response` propagate a
`TypeError` (the outer `try` only catches `json.JSONDecodeError`). -/
theorem C2_counterexample :
    parse_api_response "\x7b\x22findings\x22: 5\x7d" "a.py" = Except.error PyErr.typeError := rfl

/-- C2 (amended): `_parse_api_response` returns a (possibly empty) finding
list for every raw text EXCEPT when the parsed top level is an object whose
`findings` value is a non-iterable scalar (number, boolean or null), in which
case a `TypeError` propagates; in particular malformed JSON and a
non-object/non-array top level both yield zero findings without raising. -/
theorem C2_no_propagation (response fp : String) :
    (badFindingsShape response = false →
       ∃ fs, parse_api_response response fp = Except.ok fs) ∧
    (badFindingsShape response = true →
       parse_api_response response fp = Except.error PyErr.typeError) ∧
    (json_loads (String.mk (extract_json response.toList)) = none →
       parse_api_response response fp = Except.ok []) ∧
    (∀ q, json_loads (String.mk (extract_json response.toList)) = some (Json.num q) →
       parse_api_response response fp = Except.ok []) ∧
    (∀ s, json_loads (String.mk (extract_json response.toList)) = some (Json.str s) →
       parse_api_response response fp = Except.ok []) := by
  have hpr : parse_api_response response fp =
      match json_loads (String.mk (extract_json response.toList)) with
      | none => Except.ok []
      | some data =>
        match data with
        | Json.obj kvs =>
          match pyIter ((lookupLast kvs "findings").getD (Json.arr [])) with
          | Except.error e => Except.error e
          | Except.ok items => Except.ok (parse_items items fp)
        | Json.arr xs => Except.ok (parse_items xs fp)
        | _ => Except.ok [] := rfl
  have hbf : badFindingsShape response =
      match json_loads (String.mk (extract_json response.toList)) with
      | some (Json.obj kvs) => isPyScalar ((lookupLast kvs "findings").getD (Json.arr []))
      | _ => false := rfl
  rw [hpr, hbf]
  cases hj : json_loads (String.mk (extract_json response.toList)) with
  | none => simp
  | some data =>
    cases data with
    | obj kvs =>
      cases hv : (lookupLast kvs "findings").getD (Json.arr []) <;>
        simp [hv, pyIter, isPyScalar]
    | null => simp
    | bool b => simp
    | num q => simp
    | str s => simp
    | arr xs => simp

/-- Witness for C2 (amended) on concrete inputs: a bare array is parsed
without raising, a scalar `findings` value raises `TypeError`, non-JSON text
and a bare number both yield zero findings. -/
theorem C2_no_propagation_witness :
    (∃ fs, parse_api_response "[]" "a.py" = Except.ok fs) ∧
    parse_api_response "\x7b\x22findings\x22: null\x7d" "a.py" = Except.error PyErr.typeError ∧
    parse_api_response "no json here" "a.py" = Except.ok [] ∧
    parse_api_response "7" "a.py" = Except.ok [] :=
  ⟨(C2_no_propagation "[]" "a.py").1 rfl,
   (C2_no_propagation "\x7b\x22findings\x22: null\x7d" "a.py").2.1 rfl,
   (C2_no_propagation "no json here" "a.py").2.2.1 rfl,
   (C2_no_propagation "7" "a.py").2.2.2.1 _ rfl⟩

/-- A string contains the left part of an append. -/
lemma containsStr_append_self (p m : String) : containsStr (p ++ m) m :=
  ⟨p, "", by rw [String.append_empty]⟩

/-- Containment is preserved by appending on the right. -/
lemma containsStr_appendr (s t m : String) (h : containsStr s m) : containsStr (s ++ t) m := by
  obtain ⟨a, b, rfl⟩ := h
  exact ⟨a, b ++ t, by rw [String.append_assoc, String.append_assoc]⟩

/-- C8: `get_prompt` totalizes over `analysis_type`: any value whose
lowercasing is outside the four known keys silently selects the comprehensive
template, and for every `analysis_type` whatsoever the returned prompt embeds
the literal code between a language-tagged fence and instructs the callee to
answer with a single JSON object holding a `findings` array. -/
theorem C8_prompt_dispatch (analysis_type file_name code language : String) :
    (pyLower analysis_type ∉ (["security", "bugs", "quality", "comprehensive"] : List String) →
       get_prompt analysis_type file_name code language
         = get_comprehensive_prompt file_name code language) ∧
    containsStr (get_prompt analysis_type file_name code language) (codeFence language code) ∧
    containsStr (get_prompt analysis_type file_name code language) fmtHeader ∧
    containsStr (get_prompt analysis_type file_name code language) findingsKeyStr := by
  refine ⟨?_, ?_⟩
  · intro h
    unfold get_prompt
    dsimp only
    split_ifs with h1 h2 h3 h4 <;> simp_all
  · unfold get_prompt
    dsimp only
    split_ifs <;>
      simp only [get_security_prompt, get_bug_detection_prompt, get_quality_prompt,
        get_comprehensive_prompt] <;>
      refine ⟨?_, ?_, ?_⟩ <;>
      (repeat (first | exact containsStr_append_self _ _ | apply containsStr_appendr))

/-- Witness for C8: an unknown `analysis_type` falls back to the
comprehensive template, and a known one embeds the tagged code fence. -/
theorem C8_prompt_dispatch_witness :
    get_prompt "Weird" "a.py" "x = 1" "python"
      = get_comprehensive_prompt "a.py" "x = 1" "python" ∧
    containsStr (get_prompt "security" "a.py" "x = 1" "python") (codeFence "python" "x = 1") :=
  ⟨(C8_prompt_dispatch "Weird" "a.py" "x = 1" "python").1 (by decide),
   (C8_prompt_dispatch "security" "a.py" "x = 1" "python").2.1⟩

/-- Stripping a literal prefix off itself-plus-rest succeeds. -/
lemma stripPrefixQ_append (p s : List Char) : stripPrefixQ p (p ++ s) = some s := by
  induction p with
  | nil => simp [stripPrefixQ]
  | cons c t ih => simp [stripPrefixQ, ih]

/-- The fence cannot be stripped from a text starting with a non-backtick. -/
lemma ne_bq_strip (c : Char) (cs : List Char) (h : c ≠ bq) :
    stripPrefixQ fence (c :: cs) = none := by
  simp [fence, stripPrefixQ, h]

/-- Whitespace-skipping passes over an all-whitespace run. -/
lemma skipWs_allWs (ws l : List Char) (h : allWs ws) : skipWs (ws ++ l) = skipWs l := by
  induction ws with
  | nil => rfl
  | cons c t ih =>
    simp only [List.cons_append, skipWs, List.dropWhile_cons, h c (List.mem_cons_self c t),
      if_true]
    exact ih (fun x hx => h x (List.mem_cons_of_mem _ hx))

/-- Whitespace-skipping stops at a non-whitespace head. -/
lemma skipWs_cons_not (c : Char) (l : List Char) (h : isWs c = false) :
    skipWs (c :: l) = c :: l := by
  simp [skipWs, List.dropWhile_cons, h]

/-- The `json` tag cannot be stripped where whitespace or an opening brace
comes next. -/
lemma stripJson_none (ws1 X : List Char) (h1 : allWs ws1) :
    stripPrefixQ jsonTag (ws1 ++ '{' :: X) = none := by
  cases ws1 with
  | nil => simp [jsonTag, stripPrefixQ]
  | cons c t =>
    have hc : isWs c = true := h1 c (List.mem_cons_self c t)
    have hj : c ≠ 'j' := by
      intro h
      rw [h] at hc
      exact absurd hc (by decide)
    simp [jsonTag, stripPrefixQ, List.cons_append, hj]

/-- After a backtick-free run followed by a closing brace, the next
non-whitespace character is never a backtick, so the closing fence cannot
match there. -/
lemma strip_fence_skipWs_none :
    ∀ (bdy tail : List Char), noBq bdy →
      stripPrefixQ fence (skipWs (bdy ++ '}' :: tail)) = none := by
  intro bdy
  induction bdy with
  | nil =>
    intro tail _
    simp only [List.nil_append]
    rw [skipWs_cons_not _ _ (by decide)]
    exact ne_bq_strip _ _ (by decide)
  | cons c t ih =>
    intro tail h
    have ht : noBq t := fun x hx => h x (List.mem_cons_of_mem _ hx)
    simp only [List.cons_append]
    by_cases hw : isWs c = true
    · rw [show skipWs (c :: (t ++ '}' :: tail)) = skipWs (t ++ '}' :: tail) from by
        simp [skipWs, List.dropWhile_cons, hw]]
      exact ih tail ht
    · rw [skipWs_cons_not _ _ (by simpa using hw)]
      exact ne_bq_strip _ _ (h c (List.mem_cons_self c t))

/-- The lazy group scan closes exactly at the object's final brace: no
earlier closing brace is followed by whitespace and the closing fence. -/
lemma lazyScan_exact :
    ∀ (body ws2 post : List Char), noBq body → allWs ws2 →
      lazyScan (body ++ '}' :: (ws2 ++ (fence ++ post))) = some body := by
  intro body
  induction body with
  | nil =>
    intro ws2 post _ hw
    simp only [List.nil_append]
    have hfc : fenceClose (ws2 ++ (fence ++ post)) = true := by
      unfold fenceClose
      rw [skipWs_allWs _ _ hw,
        show fence ++ post = bq :: (bq :: (bq :: post)) from rfl,
        skipWs_cons_not _ _ (by decide),
        show bq :: (bq :: (bq :: post)) = fence ++ post from rfl,
        stripPrefixQ_append]
      rfl
    simp [lazyScan, hfc]
  | cons c t ih =>
    intro ws2 post hb hw
    have ht : noBq t := fun x hx => hb x (List.mem_cons_of_mem _ hx)
    simp only [List.cons_append]
    have hcond : (c = '}' && fenceClose (t ++ '}' :: (ws2 ++ (fence ++ post)))) = false := by
      by_cases hc : c = '}'
      · have hfc : fenceClose (t ++ '}' :: (ws2 ++ (fence ++ post))) = false := by
          unfold fenceClose
          rw [strip_fence_skipWs_none t _ ht]
          rfl
        simp [hfc]
      · simp [hc]
    simp only [lazyScan, hcond, Bool.false_eq_true, if_false]
    rw [ih ws2 post ht hw]

/-- The fenced group matched after optional tag and whitespace is exactly the
object. -/
lemma groupAt_exact (ws1 body ws2 post : List Char)
    (h1 : allWs ws1) (hb : noBq body) (hw : allWs ws2) :
    groupAt (ws1 ++ ('{' :: (body ++ '}' :: (ws2 ++ (fence ++ post)))))
      = some ('{' :: (body ++ ['}'])) := by
  unfold groupAt
  rw [skipWs_allWs _ _ h1, skipWs_cons_not _ _ (by decide)]
  show (lazyScan (body ++ '}' :: (ws2 ++ (fence ++ post)))).map
      (fun b => '{' :: (b ++ ['}'])) = some ('{' :: (body ++ ['}']))
  rw [lazyScan_exact body ws2 post hb hw]
  rfl

/-- The fenced pattern matches at the opening fence and its group is the
object, for a tagged or untagged fence. -/
lemma fenceMatchHere_exact (tag ws1 body ws2 post : List Char)
    (htag : tag = jsonTag ∨ tag = [])
    (h1 : allWs ws1) (hb : noBq body) (hw : allWs ws2) :
    fenceMatchHere
        (fence ++ (tag ++ (ws1 ++ ('{' :: (body ++ '}' :: (ws2 ++ (fence ++ post)))))))
      = some ('{' :: (body ++ ['}'])) := by
  unfold fenceMatchHere
  rw [stripPrefixQ_append fence _]
  rcases htag with rfl | rfl
  · show (match stripPrefixQ jsonTag
        (jsonTag ++ (ws1 ++ ('{' :: (body ++ '}' :: (ws2 ++ (fence ++ post)))))) with
      | some rj =>
        match groupAt rj with
        | some g => some g
        | none => groupAt (jsonTag ++ (ws1 ++ ('{' :: (body ++ '}' :: (ws2 ++ (fence ++ post))))))
      | none => groupAt (jsonTag ++ (ws1 ++ ('{' :: (body ++ '}' :: (ws2 ++ (fence ++ post)))))))
      = some ('{' :: (body ++ ['}']))
    rw [stripPrefixQ_append jsonTag _]
    show (match groupAt (ws1 ++ ('{' :: (body ++ '}' :: (ws2 ++ (fence ++ post))))) with
      | some g => some g
      | none => groupAt (jsonTag ++ (ws1 ++ ('{' :: (body ++ '}' :: (ws2 ++ (fence ++ post)))))))
      = some ('{' :: (body ++ ['}']))
    rw [groupAt_exact ws1 body ws2 post h1 hb hw]
  · simp only [List.nil_append]
    rw [stripJson_none ws1 _ h1]
    exact groupAt_exact ws1 body ws2 post h1 hb hw

/-- A match found at a position is never pre-empted by an earlier start
inside a backtick-free prefix. -/
lemma searchFence_found :
    ∀ (pre : List Char), noBq pre → ∀ (c : Char) (X g : List Char),
      fenceMatchHere (c :: X) = some g → searchFence (pre ++ c :: X) = some g := by
  intro pre
  induction pre with
  | nil =>
    intro _ c X g hm
    simp only [List.nil_append]
    show (match fenceMatchHere (c :: X) with
      | some g => some g
      | none => searchFence X) = some g
    rw [hm]
  | cons d t ih =>
    intro h c X g hm
    have hd : d ≠ bq := h d (List.mem_cons_self d t)
    simp only [List.cons_append]
    show (match fenceMatchHere (d :: (t ++ c :: X)) with
      | some g => some g
      | none => searchFence (t ++ c :: X)) = some g
    rw [show fenceMatchHere (d :: (t ++ c :: X)) = none from by
      unfold fenceMatchHere
      rw [ne_bq_strip d _ hd]]
    exact ih (fun x hx => h x (List.mem_cons_of_mem _ hx)) c X g hm

/-- C3 (amended): if the text decomposes as prose, then a fenced block
(tagged `json` or untagged) holding a balanced brace-delimited object, then
more text — with no backtick before the fence or inside the object — then
extraction returns the fenced block's complete object content (even when
stray braces occur outside the fence); and the greedy first-to-last brace
span is used only when no fenced match exists. -/
theorem C3_fenced_extraction (pre tag ws1 body ws2 post : List Char)
    (htag : tag = jsonTag ∨ tag = [])
    (hpre : noBq pre) (hbody : noBq body)
    (hws1 : allWs ws1) (hws2 : allWs ws2)
    (_hbal : isBalancedObj ('{' :: body ++ ['}']) = true)
    (_hstray : hasBrace (pre ++ post) = true) :
    extract_json
        (pre ++ fence ++ tag ++ ws1 ++ ('{' :: body ++ ['}']) ++ ws2 ++ fence ++ post)
      = '{' :: body ++ ['}'] ∧
    (∀ (s g : List Char), searchFence s = none → greedySpan s = some g →
       extract_json s = g) := by
  constructor
  · have hm := fenceMatchHere_exact tag ws1 body ws2 post htag hws1 hbody hws2
    have hm2 : fenceMatchHere
        (bq :: (bq :: (bq ::
          (tag ++ (ws1 ++ ('{' :: (body ++ '}' :: (ws2 ++ (fence ++ post)))))))))
        = some ('{' :: (body ++ ['}'])) := hm
    have hsf := searchFence_found pre hpre bq _ _ hm2
    have hchain : pre ++ fence ++ tag ++ ws1 ++ ('{' :: body ++ ['}']) ++ ws2 ++ fence ++ post
        = pre ++ bq :: (bq :: (bq ::
            (tag ++ (ws1 ++ ('{' :: (body ++ '}' :: (ws2 ++ (fence ++ post)))))))) := by
      simp [fence, List.append_assoc]
    rw [hchain]
    unfold extract_json
    rw [hsf]
    rfl
  · intro s g hs hg
    unfold extract_json
    rw [hs, hg]

/-- Witness for C3 (amended) at a concrete text with stray braces outside a
tagged fence. -/
theorem C3_fenced_extraction_witness :
    extract_json
        ("x \x7b y ".toList ++ fence ++ jsonTag ++ [' '] ++
          ('{' :: "\x22a\x22: 1".toList ++ ['}']) ++ [' '] ++ fence ++ " tail".toList)
      = '{' :: "\x22a\x22: 1".toList ++ ['}'] ∧
    (∀ (s g : List Char), searchFence s = none → greedySpan s = some g →
       extract_json s = g) :=
  C3_fenced_extraction "x \x7b y ".toList jsonTag [' '] "\x22a\x22: 1".toList [' ']
    " tail".toList (Or.inl rfl) (by decide) (by decide) (by decide) (by decide)
    (by decide) (by decide)

/-- C3 as stated is false: this text contains a `json`-tagged fenced block
holding the balanced object and stray braces outside it, yet extraction
returns a larger span (the lazy fenced regex latches onto an earlier stray
fence), not the fenced block's content. -/
theorem C3_counterexample :
    FencedJsonBlock
        "\x60\x60\x60 \x7ba\n\x60\x60\x60 stray \x7d text \x60\x60\x60json \x7b\x22b\x22:1\x7d \x60\x60\x60".toList
        "\x7b\x22b\x22:1\x7d".toList ∧
    hasBrace "\x60\x60\x60 \x7ba\n\x60\x60\x60 stray \x7d text ".toList = true ∧
    extract_json
        "\x60\x60\x60 \x7ba\n\x60\x60\x60 stray \x7d text \x60\x60\x60json \x7b\x22b\x22:1\x7d \x60\x60\x60".toList
      ≠ "\x7b\x22b\x22:1\x7d".toList := by
  refine ⟨⟨"\x60\x60\x60 \x7ba\n\x60\x60\x60 stray \x7d text ".toList, jsonTag,
    [' '], [' '], [], Or.inl rfl, by decide, by decide, by decide, by decide⟩,
    by decide, by decide⟩

end Analyzer
